import Mathlib

/-!
Verification of the LifAi2 multi-backend local-LLM client abstraction layer.

The repository ships the client layer's API reference and design documents
(`src/memory-bank/ai_clients_api_reference.md`, `systemPatterns.md`,
`techContext.md`) together with the launcher scripts and `splash.pyw`; the
client module bodies themselves (`lifai/utils/ollama_client.py`,
`lifai/utils/lmstudio_client.py`) are not part of the source tree.  The
definitions below therefore fall in two groups: shallow embeddings of code
that is present (`splash.pyw`), and models built from the specification and
the in-tree declarations for the client layer, each marked
`Modelled from the spec:` in its doc comment.
-/

namespace LifAi

/-- The two backends of the client layer: Backend Client A (Ollama,
native-API style) and Backend Client B (LM Studio, OpenAI-compatible plus
fast native dual mode). -/
inductive Backend
  | ollama
  | lmstudio
  deriving DecidableEq, Repr

/-- The four error kinds of the taxonomy (spec section 4.2): server
unreachable, deadline exceeded, model id absent, malformed or unexpected
response. -/
inductive ErrorKind
  | connection
  | timeout
  | modelNotFound
  | protocol
  deriving DecidableEq, Repr

/-- Modelled from the spec: the client layer's raised exceptions.  The
exception class declarations in `src/memory-bank/ai_clients_api_reference.md`
give each backend its own family (`OllamaError` with `OllamaConnectionError`,
`OllamaTimeoutError`, `OllamaModelNotFoundError` subclasses, and the parallel
`LMStudioError` family); a raised error is recorded here as the family it
belongs to, the kind within that family (the base class standing for
protocol/unclassified failures), and a message. -/
structure BackendExc where
  family : Backend
  kind : ErrorKind
  msg : String
  deriving DecidableEq, Repr

/-- Modelled from the spec: the ways a raw `httpx` send can fail
(spec section 4.1 Transport): connection refused or DNS failure, exceeded
deadline, or a non-2xx status with an optional parseable body. -/
inductive HttpxError
  | connectError (msg : String)
  | timeoutException (msg : String)
  | statusError (code : Nat) (body : Option String)
  deriving DecidableEq, Repr

/-- An HTTP request as seen by the transport: method and path against the
client's base URL. -/
structure HttpRequest where
  meth : String
  path : String
  deriving DecidableEq, Repr

/-- A raw HTTP response: status code and body. -/
structure HttpResponse where
  status : Nat
  body : String
  deriving DecidableEq, Repr

/-- Why a server is unreachable: connection refused or DNS failure. -/
inductive DownReason
  | refused
  | dnsFailure
  deriving DecidableEq, Repr

/-- The server as the transport sees it: unreachable for one of the two
reasons, or up and answering each request with a response. -/
inductive ServerState
  | down (reason : DownReason)
  | up (respond : HttpRequest → HttpResponse)

/-- Modelled from the spec: the pooled transport send (spec section 4.1).
Against an unreachable server the underlying `httpx` call fails with a
connect error; against a live server it returns the server's raw response. -/
def transportSend (s : ServerState) (req : HttpRequest) :
    Except HttpxError HttpResponse :=
  match s with
  | .down .refused => .error (.connectError "connection refused")
  | .down .dnsFailure => .error (.connectError "name resolution failed")
  | .up respond => .ok (respond req)

/-- Modelled from the spec: the except-chain of each client (spec sections
4.1 and 4.2; `Error Handling Best Practices` in the API reference).  Every
transport failure is wrapped into that backend's exception family: connect
errors become the connection kind, timeouts the timeout kind, a 404 status
the model-not-found kind, and any other non-2xx status the protocol kind —
never a generic, unclassified error. -/
def wrapError (b : Backend) : HttpxError → BackendExc
  | .connectError m => ⟨b, .connection, m⟩
  | .timeoutException m => ⟨b, .timeout, m⟩
  | .statusError code body =>
      if code = 404 then ⟨b, .modelNotFound, body.getD "model not found"⟩
      else ⟨b, .protocol, body.getD (toString code)⟩

/-- The operations of the collaborator-facing surface (spec sections 4.4,
4.5 and 6). -/
inductive Operation
  | listModels
  | generate
  | chat
  | embed
  | preload
  | unload
  | healthCheck
  deriving DecidableEq, Repr

/-- Modelled from the spec: the single HTTP request each operation issues,
per backend (endpoint families from the API reference and
`techContext.md`: Ollama's native `/api/...` surface, LM Studio's fast
native `/api/v0/...` surface). -/
def requestOf (b : Backend) (op : Operation) : HttpRequest :=
  match b, op with
  | .ollama, .listModels => ⟨"GET", "/api/tags"⟩
  | .ollama, .generate => ⟨"POST", "/api/generate"⟩
  | .ollama, .chat => ⟨"POST", "/api/chat"⟩
  | .ollama, .embed => ⟨"POST", "/api/embed"⟩
  | .ollama, .preload => ⟨"POST", "/api/generate"⟩
  | .ollama, .unload => ⟨"POST", "/api/generate"⟩
  | .ollama, .healthCheck => ⟨"GET", "/api/version"⟩
  | .lmstudio, .listModels => ⟨"GET", "/api/v0/models"⟩
  | .lmstudio, .generate => ⟨"POST", "/api/v0/completions"⟩
  | .lmstudio, .chat => ⟨"POST", "/api/v0/chat/completions"⟩
  | .lmstudio, .embed => ⟨"POST", "/api/v0/embeddings"⟩
  | .lmstudio, .preload => ⟨"POST", "/api/v0/models/load"⟩
  | .lmstudio, .unload => ⟨"POST", "/api/v0/models/unload"⟩
  | .lmstudio, .healthCheck => ⟨"GET", "/api/v0/models"⟩

/-- Modelled from the spec: one client call (spec sections 4.2 and 5).  The
operation issues its single transport send; a success is returned as the raw
response and any failure is wrapped into the backend's taxonomy and
surfaced.  There is no retry loop: the second component records every HTTP
request the call issued, in order. -/
def runOp (b : Backend) (s : ServerState) (op : Operation) :
    Except BackendExc HttpResponse × List HttpRequest :=
  let req := requestOf b op
  match transportSend s req with
  | .ok resp => (.ok resp, [req])
  | .error e => (.error (wrapError b e), [req])

/-- Modelled from the spec: one newline-delimited line of Backend A's
streaming generate/chat wire format (spec section 4.4): a partial text
fragment (Python `str`, embedded as a character list) and a `done` flag;
the final line carries `done = true`. -/
structure StreamLine where
  fragment : List Char
  done : Bool
  deriving DecidableEq, Repr

/-- Modelled from the spec: the client's streaming loop parses each line
independently and delivers its fragment as one chunk, in arrival order,
stopping after the line whose `done` flag is true. -/
def streamChunks : List StreamLine → List (List Char)
  | [] => []
  | l :: ls => if l.done then [l.fragment] else l.fragment :: streamChunks ls

/-- Modelled from the spec: a consumer that buffers the delivered chunks into
a final string, appending each chunk to its accumulator in delivery order. -/
def collectChunks (cs : List (List Char)) : List Char :=
  cs.foldl (fun acc c => acc ++ c) []

/-- A well-formed streaming response: at least one line, `done = false` on
every line but the last, `done = true` on the last. -/
def wellFormedStream : List StreamLine → Bool
  | [] => false
  | [l] => l.done
  | l :: ls => !l.done && wellFormedStream ls

/-- The concatenation of every fragment of the response, in wire order. -/
def joinFragments (lines : List StreamLine) : List Char :=
  (lines.map StreamLine.fragment).foldr (fun c acc => c ++ acc) []

/-- Modelled from the spec: one generation exchange as the server fixes it
for a given request (model, messages, temperature): the final text the
non-streaming variant returns, and the streamed line decomposition the
streaming variant receives for the same request. -/
structure GenExchange where
  fullText : List Char
  lines : List StreamLine

/-- Modelled from the spec: the non-streaming generate/chat variant returns
the exchange's final text whole. -/
def generateBatch (e : GenExchange) : List Char :=
  e.fullText

/-- Modelled from the spec: the streaming generate/chat variant delivers the
parsed chunks of the exchange's wire lines, in arrival order. -/
def generateStreaming (e : GenExchange) : List (List Char) :=
  streamChunks e.lines

/-- Modelled from the spec: a chat message — role, text content and an
ordered list of already-encoded image attachments (spec section 3). -/
structure ChatMessage where
  role : String
  content : List Char
  images : List (List Char)
  deriving DecidableEq, Repr

/-- Modelled from the spec: a generation request (spec section 3): model id,
ordered message sequence, temperature, optional keep-alive override and the
streaming flag.  Temperature is embedded as a rational. -/
structure GenerationRequest where
  model : String
  messages : List ChatMessage
  temperature : ℚ
  keepAlive : Option String
  streamFlag : Bool

/-- Modelled from the spec: temperature is clamped into the closed interval
[0, 2] — values below 0 go to 0, values above 2 go to 2, in-range values are
left alone (spec section 3: values outside are clamped, never silently
ignored). -/
def clampTemperature (t : ℚ) : ℚ :=
  max 0 (min 2 t)

/-- Modelled from the spec: the JSON body a generate/chat call sends to the
backend (spec section 6): model, messages verbatim, the clamped temperature,
the stream flag and the keep-alive override. -/
structure GenPayload where
  model : String
  messages : List ChatMessage
  temperature : ℚ
  keepAlive : Option String
  streamFlag : Bool

/-- Modelled from the spec: building the wire payload from a generation
request.  The temperature is clamped before the request is sent; every other
field passes through verbatim. -/
def buildGenPayload (r : GenerationRequest) : GenPayload :=
  { model := r.model
    messages := r.messages
    temperature := clampTemperature r.temperature
    keepAlive := r.keepAlive
    streamFlag := r.streamFlag }

/-- Modelled from the spec: the server side of an embedding model — a fixed
dimensionality and the function from input text to its vector
(spec section 3: dimensionality is stable per model within a session). -/
structure EmbedModel where
  dim : Nat
  embedFn : List Char → List ℚ

/-- All vectors of the response share one length. -/
def allSameLength : List (List ℚ) → Bool
  | [] => true
  | v :: vs => vs.all (fun w => w.length == v.length)

/-- Modelled from the spec: the batched embed call (spec sections 4.4 and 3).
All inputs go out in one request; `respVecs` is the embeddings array of the
server's response.  The client checks that the response carries one vector
per input and a single common dimensionality — a mismatch is a protocol
error, never a silent truncation — and otherwise returns the vectors in the
server's order. -/
def embedBatch (inputs : List (List Char)) (respVecs : List (List ℚ)) :
    Except BackendExc (List (List ℚ)) :=
  if respVecs.length ≠ inputs.length then
    .error ⟨.ollama, .protocol, "embedding count mismatch"⟩
  else if !allSameLength respVecs then
    .error ⟨.ollama, .protocol, "embedding dimensionality mismatch"⟩
  else
    .ok respVecs

/-- Modelled from the spec: `asyncio.new_event_loop()` — a loop id distinct
from every live loop (in particular from the caller's own loop, when it has
one). -/
def newEventLoop (existing : List Nat) : Nat :=
  existing.foldr max 0 + 1

/-- What one call of the synchronous wrapper did: which event loop it ran
on, whether that loop was closed afterwards, and the final result it
returned. -/
structure SyncCallRecord where
  loopUsed : Nat
  loopClosed : Bool
  result : List Char

/-- Modelled from the spec: `generate_response_sync` (Synchronous Wrapper
Pattern of `systemPatterns.md`): create a fresh private event loop, run the
asynchronous `generate_response` on it to completion with
`run_until_complete`, close the loop in the `finally` block, and return the
final result only — never partial chunks.  `asyncResult` is the
deterministic outcome of the asynchronous call on these arguments;
`existingLoops` are the live loops of the calling context. -/
def generate_response_sync (asyncResult : GenerationRequest → List Char)
    (existingLoops : List Nat) (r : GenerationRequest) : SyncCallRecord :=
  let loop := newEventLoop existingLoops
  { loopUsed := loop
    loopClosed := true
    result := asyncResult r }

/-- The loaded-state of a model as reported by a list-models call
(spec section 3). -/
inductive LoadState
  | not_loaded
  | loading
  | loaded
  | unloading
  deriving DecidableEq, Repr

/-- Modelled from the spec: Backend A's server-side registry of
memory-resident models. -/
structure SrvAState where
  residentModels : List String
  deriving DecidableEq, Repr

/-- Modelled from the spec: the server's keep-alive semantics for a
generation call (spec section 4.4 and the keep-alive reference table):
a generation with `keep_alive = "0"` evicts the model immediately after
completion; any other keep-alive leaves the model resident. -/
def afterGenerate (s : SrvAState) (model : String) (keepAlive : String) :
    SrvAState :=
  if keepAlive = "0" then
    ⟨s.residentModels.filter (fun m => m ≠ model)⟩
  else if model ∈ s.residentModels then s
  else ⟨model :: s.residentModels⟩

/-- Modelled from the spec: `unload_model` of Backend Client A issues a
generation call with keep-alive set to zero (API reference: "Immediately
unloads model from memory (sets keep_alive=0)"). -/
def unload_model (s : SrvAState) (model : String) : SrvAState :=
  afterGenerate s model "0"

/-- Modelled from the spec: the loaded-state a list-models call reports for
one model, refreshed from the server's registry. -/
def listLoadState (s : SrvAState) (model : String) : LoadState :=
  if model ∈ s.residentModels then .loaded else .not_loaded

/-- One base64 digit: the standard alphabet `A-Z a-z 0-9 + /`. -/
def b64Char (n : Nat) : Char :=
  if n < 26 then Char.ofNat (65 + n)
  else if n < 52 then Char.ofNat (97 + (n - 26))
  else if n < 62 then Char.ofNat (48 + (n - 52))
  else if n = 62 then '+'
  else '/'

/-- Standard base64 of a byte sequence (bytes as naturals below 256),
with `=` padding. -/
def base64Encode : List Nat → List Char
  | [] => []
  | [b1] =>
      [b64Char (b1 / 4), b64Char (b1 % 4 * 16), '=', '=']
  | [b1, b2] =>
      [b64Char (b1 / 4), b64Char (b1 % 4 * 16 + b2 / 16),
       b64Char (b2 % 16 * 4), '=']
  | b1 :: b2 :: b3 :: rest =>
      b64Char (b1 / 4) :: b64Char (b1 % 4 * 16 + b2 / 16) ::
      b64Char (b2 % 16 * 4 + b3 / 64) :: b64Char (b3 % 64) ::
      base64Encode rest

/-- Modelled from the spec: MIME sniffing from magic bytes (spec section
4.3; supported types per the API reference: JPEG, PNG, GIF, WebP). -/
def sniffMime : List Nat → Option String
  | 0xFF :: 0xD8 :: 0xFF :: _ => some "image/jpeg"
  | 0x89 :: 0x50 :: 0x4E :: 0x47 :: _ => some "image/png"
  | 0x47 :: 0x49 :: 0x46 :: 0x38 :: _ => some "image/gif"
  | 0x52 :: 0x49 :: 0x46 :: 0x46 :: _ :: _ :: _ :: _ ::
      0x57 :: 0x45 :: 0x42 :: 0x50 :: _ => some "image/webp"
  | _ => none

/-- The characters after the last dot of a path, lowercased. -/
def extAt (p : List Char) : List Char :=
  ((p.reverse.takeWhile (fun c => c ≠ '.')).reverse).map Char.toLower

/-- Modelled from the spec: the extension fallback of MIME detection. -/
def extMime (ext : List Char) : Option String :=
  if ext == "jpg".data || ext == "jpeg".data then some "image/jpeg"
  else if ext == "png".data then some "image/png"
  else if ext == "gif".data then some "image/gif"
  else if ext == "webp".data then some "image/webp"
  else none

/-- A data URL built from a MIME type and raw bytes:
`data:<mime>;base64,<payload>`. -/
def dataURL (mime : String) (bytes : List Nat) : List Char :=
  "data:".data ++ mime.data ++ ";base64,".data ++ base64Encode bytes

/-- Whether a string already carries the `data:` scheme. -/
def isDataURL (s : List Char) : Bool :=
  "data:".data.isPrefixOf s

/-- Modelled from the spec: the three input formats the image codec accepts
(spec section 4.3 and the Image Processing table of the API reference).  A
path input carries the bytes its file holds, making the one file read
explicit. -/
inductive ImageInput
  | filePath (path : List Char) (contents : List Nat)
  | rawBytes (bytes : List Nat)
  | strInput (s : List Char)

/-- Modelled from the spec: `encode` of the image codec (spec section 4.3).
For a path: sniff the MIME type from the magic bytes, fall back to the
extension, base64-encode and build the data URL.  For raw bytes: the same
without the read or extension.  For a string: passed through unchanged — in
particular an already-encoded data URL is returned as-is (the API
reference's table: pre-encoded strings are passed through).  An
undetectable MIME type is a protocol error in the given backend's family. -/
def encode (b : Backend) : ImageInput → Except BackendExc (List Char)
  | .filePath path contents =>
      match (sniffMime contents).orElse (fun _ => extMime (extAt path)) with
      | some mime => .ok (dataURL mime contents)
      | none => .error ⟨b, .protocol, "unsupported image type"⟩
  | .rawBytes bytes =>
      match sniffMime bytes with
      | some mime => .ok (dataURL mime bytes)
      | none => .error ⟨b, .protocol, "unsupported image type"⟩
  | .strInput s => .ok s

/-- Path concatenation as `splash.pyw`'s `os.path.join` produces it (the
platform separator abstracted to `/`). -/
def pathJoin (a b : String) : String :=
  a ++ "/" ++ b

/-- From `src/splash.pyw` (`launch_main_app`): the venv interpreter path
`<script_dir>/.venv/Scripts/pythonw.exe`. -/
def venvPythonw (scriptDir : String) : String :=
  pathJoin (pathJoin (pathJoin scriptDir ".venv") "Scripts") "pythonw.exe"

/-- From `src/splash.pyw` (`launch_main_app`): the main-app script path
`<script_dir>/run.pyw`. -/
def runScriptPath (scriptDir : String) : String :=
  pathJoin scriptDir "run.pyw"

/-- From `src/splash.pyw` (`launch_main_app`): the argv handed to
`subprocess.Popen` — the venv interpreter when `os.path.exists` says it is
there, the bare `pythonw` command otherwise. -/
def launchArgv (fsExists : String → Bool) (scriptDir : String) :
    List String :=
  if fsExists (venvPythonw scriptDir) then
    [venvPythonw scriptDir, runScriptPath scriptDir]
  else
    ["pythonw", runScriptPath scriptDir]

/-- The two timer callbacks `main` of `splash.pyw` schedules. -/
inductive SplashAction
  | launchMainApp
  | quitApp
  deriving DecidableEq, Repr

/-- From `src/splash.pyw` (`main`): the two single-shot timers, in the order
they are registered — launch the main app 500 ms after startup, quit the
splash application 3000 ms after startup. -/
def mainTimers : List (Nat × SplashAction) :=
  [(500, .launchMainApp), (3000, .quitApp)]

/-- What a fired timer callback did: spawned the subprocess with the given
argv, failed to spawn it, or quit the application. -/
inductive SplashEvent
  | spawned (argv : List String)
  | spawnFailed (argv : List String)
  | quit
  deriving DecidableEq, Repr

/-- The environment `splash.pyw` runs in: which files exist
(`os.path.exists`) and which argvs `subprocess.Popen` can actually spawn. -/
structure SplashEnv where
  fsExists : String → Bool
  spawnOk : List String → Bool

/-- From `src/splash.pyw` together with PyQt6's unhandled-exception policy:
fire the scheduled timers in order.  The launch callback builds its argv and
calls `subprocess.Popen`; when the spawn raises (the chosen interpreter
cannot be executed), the exception escapes the timer slot and PyQt aborts
the process via `qFatal`, so no later timer fires.  The quit callback calls
`app.quit()` and never raises. -/
def runTimers (env : SplashEnv) (scriptDir : String) :
    List (Nat × SplashAction) → List (Nat × SplashEvent)
  | [] => []
  | (t, .launchMainApp) :: rest =>
      let argv := launchArgv env.fsExists scriptDir
      if env.spawnOk argv then (t, .spawned argv) :: runTimers env scriptDir rest
      else [(t, .spawnFailed argv)]
  | (t, .quitApp) :: rest => (t, .quit) :: runTimers env scriptDir rest

/-- From `src/splash.pyw` (`main`): the timed events one run of `main`
produces, with the startup-relative time of each; a run whose 500 ms
callback raises aborts at that event. -/
def runSplashMain (env : SplashEnv) (scriptDir : String) :
    List (Nat × SplashEvent) :=
  runTimers env scriptDir mainTimers

/-- The argv an event attempted to spawn, when it was a spawn attempt. -/
def spawnArgvOf : SplashEvent → Option (List String)
  | .spawned argv => some argv
  | .spawnFailed argv => some argv
  | .quit => none

/-- A well-formed stream delivers every fragment, in wire order: the early
stop at `done` drops nothing because `done` is only set on the last line. -/
theorem streamChunks_eq_map :
    ∀ {lines : List StreamLine}, wellFormedStream lines = true →
      streamChunks lines = lines.map StreamLine.fragment := by
  intro lines
  induction lines with
  | nil => intro h; simp [wellFormedStream] at h
  | cons l ls ih =>
    intro h
    cases ls with
    | nil =>
      simp [wellFormedStream] at h
      simp [streamChunks, h]
    | cons l₂ ls₂ =>
      simp only [wellFormedStream, Bool.and_eq_true, Bool.not_eq_true'] at h
      rw [List.map_cons, ← ih h.2]
      simp [streamChunks, h.1]

/-- Left-fold buffering of chunks equals their right-fold concatenation. -/
theorem foldl_append_eq (cs : List (List Char)) :
    ∀ acc : List Char,
      cs.foldl (fun a c => a ++ c) acc = acc ++ cs.foldr (fun c a => c ++ a) [] := by
  induction cs with
  | nil => intro acc; simp
  | cons c cs ih => intro acc; simp [ih, List.append_assoc]

/-- C1: for one generation request, the streaming variant delivers exactly
the wire fragments in arrival order — no chunk reordered, no chunk dropped
— and concatenating the delivered chunks in order yields exactly the final
text the non-streaming variant returns, given the exchange's wire contract
(a well-formed line sequence whose fragments join to the final text). -/
theorem streaming_batch_equivalence (e : GenExchange)
    (hwf : wellFormedStream e.lines = true)
    (hwire : joinFragments e.lines = e.fullText) :
    generateStreaming e = e.lines.map StreamLine.fragment ∧
    collectChunks (generateStreaming e) = generateBatch e := by
  refine ⟨streamChunks_eq_map hwf, ?_⟩
  rw [generateStreaming, streamChunks_eq_map hwf, generateBatch, ← hwire]
  rw [joinFragments, collectChunks, foldl_append_eq, List.nil_append]

/-- Witness for C1 at a concrete two-chunk exchange. -/
theorem streaming_batch_equivalence_witness :
    collectChunks (generateStreaming ⟨['H', 'i'], [⟨['H'], false⟩, ⟨['i'], true⟩]⟩)
      = generateBatch ⟨['H', 'i'], [⟨['H'], false⟩, ⟨['i'], true⟩]⟩ :=
  (streaming_batch_equivalence ⟨['H', 'i'], [⟨['H'], false⟩, ⟨['i'], true⟩]⟩
    (by decide) (by decide)).2

/-- C2: every client operation invoked while the server is unreachable —
connection refused or DNS failure — surfaces an error of the taxonomy's
connection kind in the calling backend's family, never a generic or
unclassified error. -/
theorem unreachable_raises_connection_error (b : Backend) (op : Operation)
    (reason : DownReason) :
    ∃ msg, (runOp b (.down reason) op).1 = .error ⟨b, .connection, msg⟩ := by
  cases reason
  · exact ⟨"connection refused", rfl⟩
  · exact ⟨"name resolution failed", rfl⟩

/-- Witness for C2: a DNS failure on an embed call against Backend Client B
surfaces as that family's connection kind. -/
theorem unreachable_raises_connection_error_witness :
    ∃ msg, (runOp .lmstudio (.down .dnsFailure) .embed).1 =
      .error ⟨.lmstudio, .connection, msg⟩ :=
  unreachable_raises_connection_error .lmstudio .embed .dnsFailure

/-- C3 counterexample: for the very same transport failure, Backend Client A
and Backend Client B raise exceptions of different families — the error type
hierarchy is per-backend, not one hierarchy shared by both clients. -/
theorem per_backend_exception_families :
    (wrapError .ollama (.connectError "connection refused")).family ≠
      (wrapError .lmstudio (.connectError "connection refused")).family := by
  decide

/-- C3 (amended): each backend raises errors from its own exception family,
but the two families are structurally parallel four-kind taxonomies: every
transport failure is classified with the same kind by both clients, every
raised error carries its own backend's family, and each backend's family
realizes all four kinds. -/
theorem parallel_error_taxonomies :
    (∀ f : HttpxError, (wrapError .ollama f).kind = (wrapError .lmstudio f).kind) ∧
    (∀ (b : Backend) (f : HttpxError), (wrapError b f).family = b) ∧
    (∀ (b : Backend) (k : ErrorKind), ∃ f : HttpxError, (wrapError b f).kind = k) := by
  refine ⟨?_, ?_, ?_⟩
  · intro f
    cases f with
    | connectError m => rfl
    | timeoutException m => rfl
    | statusError code body =>
      by_cases hc : code = 404 <;> simp [wrapError, hc]
  · intro b f
    cases f with
    | connectError m => rfl
    | timeoutException m => rfl
    | statusError code body =>
      by_cases hc : code = 404 <;> simp [wrapError, hc]
  · intro b k
    cases k with
    | connection => exact ⟨.connectError "", rfl⟩
    | timeout => exact ⟨.timeoutException "", rfl⟩
    | modelNotFound => exact ⟨.statusError 404 none, rfl⟩
    | protocol => exact ⟨.statusError 500 none, rfl⟩

/-- A list is a prefix of itself followed by anything. -/
theorem isPrefixOf_append_self (l₁ l₂ : List Char) :
    l₁.isPrefixOf (l₁ ++ l₂) = true := by
  induction l₁ with
  | nil => simp [List.isPrefixOf]
  | cons c cs ih => simp [List.isPrefixOf, ih]

/-- C4: the image codec's encode is idempotent: an already-encoded data-URL
string passes through unchanged; whatever string a successful encode of any
valid input (path, raw bytes, or pre-encoded string) produced, encoding that
string again returns it unchanged, so encode ∘ encode = encode; and the data
URL built for a path or raw-bytes input does carry the `data:` scheme. -/
theorem encode_idempotent (b : Backend) :
    (∀ s : List Char, isDataURL s = true → encode b (.strInput s) = .ok s) ∧
    (∀ (x : ImageInput) (s : List Char), encode b x = .ok s →
        encode b (.strInput s) = .ok s) ∧
    (∀ (mime : String) (bytes : List Nat), isDataURL (dataURL mime bytes) = true) := by
  refine ⟨fun s _ => rfl, fun x s _ => rfl, fun mime bytes => ?_⟩
  rw [isDataURL, dataURL]
  exact isPrefixOf_append_self _ _

/-- Witness for C4: re-encoding the data URL produced for a concrete PNG
byte string returns it unchanged. -/
theorem encode_idempotent_witness :
    encode .ollama (.strInput (dataURL "image/png" [137, 80, 78, 71])) =
      .ok (dataURL "image/png" [137, 80, 78, 71]) :=
  (encode_idempotent .ollama).2.1 (.rawBytes [137, 80, 78, 71]) _ rfl

/-- C5: the temperature of a generation request is clamped into [0, 2] in
the payload actually sent: values below 0 become 0, values above 2 become 2,
in-range values pass through unchanged — never silently dropped. -/
theorem temperature_clamped (r : GenerationRequest) :
    ((buildGenPayload r).temperature = clampTemperature r.temperature) ∧
    (r.temperature < 0 → (buildGenPayload r).temperature = 0) ∧
    (2 < r.temperature → (buildGenPayload r).temperature = 2) ∧
    (0 ≤ r.temperature → r.temperature ≤ 2 →
        (buildGenPayload r).temperature = r.temperature) := by
  refine ⟨rfl, ?_, ?_, ?_⟩
  · intro h
    have h2 : r.temperature ≤ 2 := le_of_lt (lt_trans h (by norm_num))
    simp [buildGenPayload, clampTemperature, min_eq_right h2, max_eq_left (le_of_lt h)]
  · intro h
    simp [buildGenPayload, clampTemperature, min_eq_left (le_of_lt h)]
  · intro h0 h2
    simp [buildGenPayload, clampTemperature, min_eq_right h2, max_eq_right h0]

/-- Witness for C5 at temperatures 3, -1 and 1. -/
theorem temperature_clamped_witness :
    (buildGenPayload ⟨"m1", [], 3, none, false⟩).temperature = 2 ∧
    (buildGenPayload ⟨"m1", [], -1, none, false⟩).temperature = 0 ∧
    (buildGenPayload ⟨"m1", [], 1, none, false⟩).temperature = 1 :=
  ⟨(temperature_clamped ⟨"m1", [], 3, none, false⟩).2.2.1 (by norm_num),
   (temperature_clamped ⟨"m1", [], -1, none, false⟩).2.1 (by norm_num),
   (temperature_clamped ⟨"m1", [], 1, none, false⟩).2.2.2 (by norm_num) (by norm_num)⟩

/-- When every vector has length `dim`, the dimensionality check passes. -/
theorem allSameLength_of_const {dim : Nat} :
    ∀ vecs : List (List ℚ), (∀ v ∈ vecs, v.length = dim) →
      allSameLength vecs = true := by
  intro vecs h
  cases vecs with
  | nil => rfl
  | cons v vs =>
    simp only [allSameLength, List.all_eq_true, beq_iff_eq]
    intro w hw
    rw [h w (List.mem_cons_of_mem _ hw), h v (List.mem_cons_self _ _)]

/-- C6: a batched embed call over n input strings succeeds and returns
exactly n vectors, the vector at position i being the embedding of the input
at position i, and all returned vectors have the model's common nonzero
dimensionality — given the server honoring its wire contract (one vector per
input, in order, of the model's fixed dimensionality). -/
theorem embed_batch_order_and_shape (m : EmbedModel)
    (inputs : List (List Char)) (respVecs : List (List ℚ))
    (hresp : respVecs = inputs.map m.embedFn)
    (hlen : ∀ s, (m.embedFn s).length = m.dim)
    (hdim : 0 < m.dim) :
    embedBatch inputs respVecs = .ok respVecs ∧
    respVecs.length = inputs.length ∧
    (∀ i : Nat, respVecs[i]? = (inputs[i]?).map m.embedFn) ∧
    (∀ v ∈ respVecs, v.length = m.dim ∧ v.length ≠ 0) := by
  have hmemlen : ∀ v ∈ respVecs, v.length = m.dim := by
    intro v hv
    rw [hresp] at hv
    rcases List.mem_map.mp hv with ⟨s, _, hs⟩
    rw [← hs]
    exact hlen s
  have hcount : respVecs.length = inputs.length := by
    rw [hresp]; exact List.length_map _ _
  refine ⟨?_, hcount, ?_, ?_⟩
  · rw [embedBatch, if_neg (by rw [hcount]; exact fun h => h rfl)]
    rw [allSameLength_of_const respVecs hmemlen]
    rfl
  · intro i
    rw [hresp]
    exact List.getElem?_map m.embedFn inputs i
  · intro v hv
    refine ⟨hmemlen v hv, ?_⟩
    rw [hmemlen v hv]
    omega

/-- Witness for C6 on two concrete inputs and a dimension-2 model. -/
theorem embed_batch_witness :
    embedBatch [['a'], ['b', 'c']] [[1, 1], [2, 1]] = .ok [[1, 1], [2, 1]] :=
  (embed_batch_order_and_shape ⟨2, fun s => [(s.length : ℚ), 1]⟩
    [['a'], ['b', 'c']] [[1, 1], [2, 1]] (by decide) (fun s => rfl) (by decide)).1

/-- Every member of a list of naturals is bounded by its max fold. -/
theorem le_foldr_max {x : Nat} :
    ∀ {l : List Nat}, x ∈ l → x ≤ l.foldr max 0 := by
  intro l
  induction l with
  | nil => intro hx; cases hx
  | cons a as ih =>
    intro hx
    rcases List.mem_cons.mp hx with h | h
    · subst h; exact le_max_left _ _
    · exact le_trans (ih h) (le_max_right _ _)

/-- A freshly created event loop is none of the live loops. -/
theorem newEventLoop_not_mem (l : List Nat) : newEventLoop l ∉ l := by
  intro hmem
  have h := le_foldr_max hmem
  rw [newEventLoop] at h
  omega

/-- C7: the synchronous wrapper returns exactly the final result of the
asynchronous call on the same arguments — the whole result, never partial
chunks — runs it on a private event loop distinct from every loop of the
calling context, and closes that loop afterwards. -/
theorem sync_wrapper_equivalence (asyncResult : GenerationRequest → List Char)
    (existingLoops : List Nat) (r : GenerationRequest) :
    (generate_response_sync asyncResult existingLoops r).result = asyncResult r ∧
    (generate_response_sync asyncResult existingLoops r).loopUsed ∉ existingLoops ∧
    (generate_response_sync asyncResult existingLoops r).loopClosed = true :=
  ⟨rfl, newEventLoop_not_mem existingLoops, rfl⟩

/-- Witness for C7 on a concrete request with two live caller loops. -/
theorem sync_wrapper_equivalence_witness :
    (generate_response_sync (fun _ => ['o', 'k']) [1, 2]
        ⟨"m", [], 1, none, false⟩).result = ['o', 'k'] ∧
    (generate_response_sync (fun _ => ['o', 'k']) [1, 2]
        ⟨"m", [], 1, none, false⟩).loopUsed ∉ [1, 2] :=
  ⟨(sync_wrapper_equivalence (fun _ => ['o', 'k']) [1, 2]
      ⟨"m", [], 1, none, false⟩).1,
   (sync_wrapper_equivalence (fun _ => ['o', 'k']) [1, 2]
      ⟨"m", [], 1, none, false⟩).2.1⟩

/-- C8: unload of Backend Client A is the generation call with keep-alive
"0", and immediately afterwards a list-models call reports the model
not-loaded — never loaded. -/
theorem unload_then_list_not_loaded (s : SrvAState) (model : String) :
    unload_model s model = afterGenerate s model "0" ∧
    listLoadState (unload_model s model) model = .not_loaded ∧
    listLoadState (unload_model s model) model ≠ .loaded := by
  have hmem : model ∉ (unload_model s model).residentModels := by
    simp [unload_model, afterGenerate, List.mem_filter]
  refine ⟨rfl, ?_, ?_⟩
  · rw [listLoadState, if_neg hmem]
  · rw [listLoadState, if_neg hmem]
    intro h
    cases h

/-- Witness for C8 on a concrete two-model registry. -/
theorem unload_then_list_not_loaded_witness :
    listLoadState (unload_model ⟨["m1", "m2"]⟩ "m1") "m1" = .not_loaded :=
  (unload_then_list_not_loaded ⟨["m1", "m2"]⟩ "m1").2.1

/-- C9: every client call issues exactly one HTTP request — no internal
retry on any failure kind — and a transport failure is surfaced to the
caller, wrapped in the taxonomy, with no second request issued. -/
theorem at_most_one_attempt (b : Backend) (s : ServerState) (op : Operation) :
    (runOp b s op).2 = [requestOf b op] ∧
    (runOp b s op).2.length = 1 ∧
    (∀ e, transportSend s (requestOf b op) = .error e →
        (runOp b s op).1 = .error (wrapError b e)) := by
  have htrace : (runOp b s op).2 = [requestOf b op] := by
    cases s with
    | down reason => cases reason <;> rfl
    | up respond => rfl
  refine ⟨htrace, by rw [htrace]; rfl, ?_⟩
  intro e he
  rw [runOp]
  simp only [he]

/-- Witness for C9: a refused connection on a generate call is surfaced from
the single attempt. -/
theorem at_most_one_attempt_witness :
    (runOp .ollama (.down .refused) .generate).1 =
      .error (wrapError .ollama (.connectError "connection refused")) :=
  (at_most_one_attempt .ollama (.down .refused) .generate).2.2
    (.connectError "connection refused") rfl

/-- C10 counterexample: in an environment where the venv interpreter does
not exist and the bare `pythonw` command cannot be spawned either, `Popen`
raises `FileNotFoundError` inside the 500 ms timer callback
(`splash.pyw:199`); the unhandled exception escaping the slot aborts the
splash application under PyQt's `qFatal` policy, and the 3000 ms quit never
happens — the quit is not unconditional on a failed subprocess launch. -/
theorem splash_quit_not_unconditional :
    (3000, SplashEvent.quit) ∉
      runSplashMain ⟨fun _ => false, fun _ => false⟩ "app" ∧
    runSplashMain ⟨fun _ => false, fun _ => false⟩ "app" =
      [(500, SplashEvent.spawnFailed ["pythonw", "app/run.pyw"])] := by
  decide

/-- C10 (amended): one run of `splash.pyw`'s `main` schedules the spawn
attempt of `run.pyw` at exactly 500 ms — with the venv interpreter
`.venv/Scripts/pythonw.exe` when that file exists and the bare `pythonw`
command otherwise — and schedules the quit at 3000 ms.  When the spawn does
not raise, the run is exactly the spawn at 500 ms followed by the quit at
3000 ms; when `Popen` raises, the run aborts at the 500 ms callback and the
quit never fires.  The schedule consults the filesystem only at the venv
interpreter path, so whether `run.pyw` exists cannot affect it. -/
theorem splash_schedule_amended (env : SplashEnv) (scriptDir : String) :
    (∃ ev, (runSplashMain env scriptDir).head? = some (500, ev) ∧
        spawnArgvOf ev = some (launchArgv env.fsExists scriptDir)) ∧
    (env.spawnOk (launchArgv env.fsExists scriptDir) = true →
        runSplashMain env scriptDir =
          [(500, SplashEvent.spawned (launchArgv env.fsExists scriptDir)),
           (3000, SplashEvent.quit)]) ∧
    (env.spawnOk (launchArgv env.fsExists scriptDir) = false →
        runSplashMain env scriptDir =
          [(500, SplashEvent.spawnFailed (launchArgv env.fsExists scriptDir))] ∧
        (3000, SplashEvent.quit) ∉ runSplashMain env scriptDir) ∧
    (env.fsExists (venvPythonw scriptDir) = true →
        launchArgv env.fsExists scriptDir =
          [venvPythonw scriptDir, runScriptPath scriptDir]) ∧
    (env.fsExists (venvPythonw scriptDir) = false →
        launchArgv env.fsExists scriptDir =
          ["pythonw", runScriptPath scriptDir]) ∧
    (∀ env₂ : SplashEnv,
        env₂.fsExists (venvPythonw scriptDir) =
            env.fsExists (venvPythonw scriptDir) →
        env₂.spawnOk = env.spawnOk →
        runSplashMain env₂ scriptDir = runSplashMain env scriptDir) := by
  refine ⟨?_, ?_, ?_, ?_, ?_, ?_⟩
  · by_cases hs : env.spawnOk (launchArgv env.fsExists scriptDir)
    · exact ⟨SplashEvent.spawned (launchArgv env.fsExists scriptDir),
        by simp [runSplashMain, runTimers, mainTimers, hs], rfl⟩
    · exact ⟨SplashEvent.spawnFailed (launchArgv env.fsExists scriptDir),
        by simp [runSplashMain, runTimers, mainTimers, hs], rfl⟩
  · intro hs
    simp [runSplashMain, runTimers, mainTimers, hs]
  · intro hs
    have hrun : runSplashMain env scriptDir =
        [(500, SplashEvent.spawnFailed (launchArgv env.fsExists scriptDir))] := by
      simp [runSplashMain, runTimers, mainTimers, hs]
    refine ⟨hrun, ?_⟩
    rw [hrun]
    simp
  · intro h; rw [launchArgv, if_pos h]
  · intro h; rw [launchArgv, if_neg (by rw [h]; exact fun hc => nomatch hc)]
  · intro env₂ hfs hspawn
    have hargv : launchArgv env₂.fsExists scriptDir =
        launchArgv env.fsExists scriptDir := by
      rw [launchArgv, launchArgv, hfs]
    simp [runSplashMain, runTimers, mainTimers, hargv, hspawn]

/-- Witness for amended C10 in an environment with no venv interpreter and a
spawnable `pythonw`: the bare interpreter is chosen, the spawn happens at
500 ms, and the quit follows at 3000 ms. -/
theorem splash_schedule_amended_witness :
    runSplashMain ⟨fun _ => false, fun _ => true⟩ "app" =
      [(500, SplashEvent.spawned ["pythonw", "app/run.pyw"]),
       (3000, SplashEvent.quit)] :=
  (splash_schedule_amended ⟨fun _ => false, fun _ => true⟩ "app").2.1 rfl

end LifAi
